import Mathlib

/-!
Verification of the gdbm compatibility shim (gdbm_compat.h / gdbm_compat_linux.c).

The shim supplies an opaque placeholder struct `DBM` and two error-introspection
functions over gdbm's process-wide error variable `gdbm_errno`:

  void dbm_clearerr(DBM* db) { gdbm_errno = 0; }
  int dbm_error(DBM* db) { return gdbm_errno; }

We embed the process state visible to the shim (the global `gdbm_errno`, a heap
of `DBM` objects addressable by pointers, and all remaining process state as an
abstract component), and translate each function body into a state transformer
that returns, in the `Except` monad, its result together with a trace of the
memory accesses the body performs.  A C statement that dereferences a null or
dangling handle pointer would produce a `CError`; the two shim bodies touch
only the global error variable, which is what several of the theorems below
establish.
-/

/-- The C struct from gdbm_compat.h, line 13: a struct whose only member is
`int dummy[10]`.  It is an opaque fixed-size placeholder; the shim never reads
or writes its fields. -/
structure DBM where
  dummy : Fin 10 → Int

/-- A C pointer to a `DBM`: an address into the heap.  Address 0 plays the role
of the null pointer. -/
abbrev DBMPtr := Nat

/-- The null handle pointer. -/
def nullPtr : DBMPtr := 0

/-- Process-wide C program state visible to the shim: gdbm's global error
variable `gdbm_errno`, the heap of `DBM` objects addressable by pointer, and
`rest`, an abstract stand-in for every other piece of process state (which the
shim never touches).  In a well-formed state `heap nullPtr = none`, but no
function below depends on the heap at all, since the handle argument is never
dereferenced. -/
structure CState (σ : Type) where
  gdbm_errno : Int
  heap : DBMPtr → Option DBM
  rest : σ

/-- The memory accesses a shim function body can perform, recorded as a trace:
reading or writing the global error variable, and reading or writing a field of
a `DBM` structure through a handle pointer. -/
inductive Access where
  | readErrno : Access
  | writeErrno (v : Int) : Access
  | readHandleField (p : DBMPtr) (i : Fin 10) : Access
  | writeHandleField (p : DBMPtr) (i : Fin 10) (v : Int) : Access
deriving DecidableEq

/-- Whether an access reads or writes a field of the structure a handle points
to, i.e. dereferences a handle. -/
def Access.touchesHandle : Access → Bool
  | .readHandleField _ _ => true
  | .writeHandleField _ _ _ => true
  | _ => false

/-- The C runtime errors a shim body could raise: dereferencing a null or
dangling handle pointer (undefined behavior in C, modelled as an error). -/
inductive CError where
  | nullOrDanglingDeref : CError
deriving DecidableEq

/-- Semantics of the C expression `db->dummy[i]`: reading field `i` of the
struct pointed to by `p` fails when `p` is null or dangling.  This operation is
available to function bodies; neither shim function uses it. -/
def readField (p : DBMPtr) (i : Fin 10) (s : CState σ) :
    Except CError (Int × List Access) :=
  match s.heap p with
  | some d => .ok (d.dummy i, [Access.readHandleField p i])
  | none => .error CError.nullOrDanglingDeref

/-- Semantics of the C statement `db->dummy[i] = v`: writing field `i` of the
struct pointed to by `p` fails when `p` is null or dangling.  This operation is
available to function bodies; neither shim function uses it. -/
def writeField (p : DBMPtr) (i : Fin 10) (v : Int) (s : CState σ) :
    Except CError (CState σ × List Access) :=
  match s.heap p with
  | some d =>
      .ok ({ s with heap := fun q =>
               if q = p then some ⟨fun j => if j = i then v else d.dummy j⟩
               else s.heap q },
           [Access.writeHandleField p i v])
  | none => .error CError.nullOrDanglingDeref

/-- Translation of `void dbm_clearerr(DBM* db)` from gdbm_compat_linux.c,
lines 5-7.  The body is the single statement `gdbm_errno = 0;`: it writes the
global error variable and never uses the handle argument `db`.  The result is
the updated state and the trace of the one access the body performs. -/
def dbm_clearerr (db : DBMPtr) (s : CState σ) :
    Except CError (CState σ × List Access) :=
  .ok ({ s with gdbm_errno := 0 }, [Access.writeErrno 0])

/-- Translation of `int dbm_error(DBM* db)` from gdbm_compat_linux.c,
lines 9-11.  The body is the single statement `return gdbm_errno;`: it reads
the global error variable, changes nothing, and never uses the handle argument
`db`. -/
def dbm_error (db : DBMPtr) (s : CState σ) :
    Except CError (Int × CState σ × List Access) :=
  .ok (s.gdbm_errno, s, [Access.readErrno])

/-- Modelled from the spec: the numeric value of the external gdbm library's
`GDBM_ITEM_NOT_FOUND` error code.  The gdbm header is not part of this
repository; the spec only requires the sentinel to be a specific nonzero code,
and 15 is its position in gdbm 1.8's error enumeration. -/
def GDBM_ITEM_NOT_FOUND : Int := 15

/-- The macro `DBM_ITEM_NOT_FOUND` from gdbm_compat.h, line 33, defined to be
exactly the engine's `GDBM_ITEM_NOT_FOUND`. -/
def DBM_ITEM_NOT_FOUND : Int := GDBM_ITEM_NOT_FOUND

/-- A datum: a key or value byte string of the ndbm interface. -/
abbrev Datum := List Int

/-- Modelled from the spec: the underlying gdbm engine's ndbm-compatible
`dbm_delete` is external library code, absent from src/, which holds only its
prototype (gdbm_compat.h, line 21) and the comment at gdbm_compat.h,
lines 31-32.  Per the spec and that comment, deleting a key that is absent from
the database does not return 1 as classic BSD ndbm would; it reports failure
through a failure return (gdbm returns -1) and sets the engine's global error
code to the item-not-found sentinel.  The database contents are modelled as an
association list of key/value byte strings. -/
def dbm_delete (contents : List (Datum × Datum)) (key : Datum) (s : CState σ) :
    Int × List (Datum × Datum) × CState σ :=
  if contents.any (fun kv => kv.1 == key) then
    (0, contents.filter (fun kv => !(kv.1 == key)), s)
  else
    (-1, contents, { s with gdbm_errno := GDBM_ITEM_NOT_FOUND })

/-- Sample concrete state used to instantiate theorems with hypotheses. -/
def sampleState : CState Unit :=
  { gdbm_errno := 7, heap := fun _ => none, rest := () }

/-- Second sample concrete state, with a different handle heap and different
remaining process state but the same error indicator as `sampleState`. -/
def sampleState2 : CState Bool :=
  { gdbm_errno := 7,
    heap := fun p => if p = 1 then some ⟨fun _ => 3⟩ else none,
    rest := true }

/-- Claim C1: for every handle `db`, every handle `db'` and every prior value
of the engine's global error indicator, calling `dbm_clearerr db` and then
`dbm_error db'` on the resulting state returns the zero/no-error value. -/
theorem clearerr_then_error_returns_zero (σ : Type) (db db' : DBMPtr)
    (s : CState σ) :
    ∃ s1 t1 r s2 t2,
      dbm_clearerr db s = .ok (s1, t1) ∧
      dbm_error db' s1 = .ok (r, s2, t2) ∧
      r = 0 :=
  ⟨_, _, _, _, _, rfl, rfl, rfl⟩

/-- Claim C2: `dbm_clearerr` runs to completion, resets the global error
indicator to its zero value, leaves the handle heap and all other process
state untouched, and gives the same outcome whichever handle is passed. -/
theorem clearerr_resets_errno (σ : Type) (db db2 : DBMPtr) (s : CState σ) :
    ∃ s' t,
      dbm_clearerr db s = .ok (s', t) ∧
      s'.gdbm_errno = 0 ∧
      s'.heap = s.heap ∧
      s'.rest = s.rest ∧
      dbm_clearerr db2 s = dbm_clearerr db s :=
  ⟨_, _, rfl, rfl, rfl, rfl, rfl⟩

/-- Claim C3: `dbm_error` returns exactly the current value of the global
error indicator, and gives the same outcome whichever handle is passed. -/
theorem error_returns_errno (σ : Type) (db db2 : DBMPtr) (s : CState σ) :
    ∃ r s' t,
      dbm_error db s = .ok (r, s', t) ∧
      r = s.gdbm_errno ∧
      dbm_error db2 s = dbm_error db s :=
  ⟨_, _, _, rfl, rfl, rfl⟩

/-- Claim C4: deleting a key absent from the database does not return the
classic ndbm value 1; it sets the engine's global error code to
`DBM_ITEM_NOT_FOUND`, which equals the engine's `GDBM_ITEM_NOT_FOUND`, and a
subsequent `dbm_error` returns that sentinel. -/
theorem delete_absent_key_signals_not_found (σ : Type) (db : DBMPtr)
    (contents : List (Datum × Datum)) (key : Datum) (s : CState σ)
    (habs : contents.any (fun kv => kv.1 == key) = false) :
    (dbm_delete contents key s).1 ≠ 1 ∧
    (dbm_delete contents key s).2.2.gdbm_errno = DBM_ITEM_NOT_FOUND ∧
    DBM_ITEM_NOT_FOUND = GDBM_ITEM_NOT_FOUND ∧
    ∃ r s' t,
      dbm_error db (dbm_delete contents key s).2.2 = .ok (r, s', t) ∧
      r = DBM_ITEM_NOT_FOUND := by
  rw [dbm_delete, habs, if_neg Bool.false_ne_true]
  refine ⟨?_, rfl, rfl, _, _, _, rfl, rfl⟩
  show (-1 : Int) ≠ 1
  decide

/-- Witness for claim C4 at a concrete input: the empty database does not
contain the key `[1]`, and deleting that key signals item-not-found. -/
theorem delete_absent_key_signals_not_found_witness :
    (([] : List (Datum × Datum)).any (fun kv => kv.1 == ([1] : Datum))
        = false) ∧
    ((dbm_delete [] [1] sampleState).1 ≠ 1 ∧
     (dbm_delete [] [1] sampleState).2.2.gdbm_errno = DBM_ITEM_NOT_FOUND ∧
     DBM_ITEM_NOT_FOUND = GDBM_ITEM_NOT_FOUND ∧
     ∃ r s' t,
       dbm_error 3 (dbm_delete [] [1] sampleState).2.2 = .ok (r, s', t) ∧
       r = DBM_ITEM_NOT_FOUND) :=
  ⟨rfl,
   delete_absent_key_signals_not_found Unit 3 [] [1] sampleState rfl⟩

/-- Claim C5: neither `dbm_clearerr` nor `dbm_error` can itself fail: for every
handle and every state, both produce an `ok` result, never an error. -/
theorem shim_error_functions_cannot_fail (σ : Type) (db : DBMPtr)
    (s : CState σ) :
    (∃ out, dbm_clearerr db s = .ok out) ∧
    (∃ out, dbm_error db s = .ok out) :=
  ⟨⟨_, rfl⟩, ⟨_, rfl⟩⟩

/-- Claim C6: `dbm_error` has no side effects: the state it returns is exactly
the state it was given, so the global error indicator, the handle heap and all
other process state are unchanged, and its trace performs no write. -/
theorem error_has_no_side_effects (σ : Type) (db : DBMPtr) (s : CState σ) :
    ∃ r t,
      dbm_error db s = .ok (r, s, t) ∧
      t = [Access.readErrno] :=
  ⟨_, _, rfl, rfl⟩

/-- Claim C7: the shim never inspects or mutates the contents of the opaque
handle: both functions run to completion, their access traces contain no read
or write of any field of a `DBM` structure, and the heap of `DBM` objects is
left unchanged. -/
theorem shim_never_touches_handle (σ : Type) (db : DBMPtr) (s : CState σ) :
    (∃ s1 t1,
       dbm_clearerr db s = .ok (s1, t1) ∧
       s1.heap = s.heap ∧
       t1.all (fun a => !a.touchesHandle) = true) ∧
    (∃ r s2 t2,
       dbm_error db s = .ok (r, s2, t2) ∧
       s2.heap = s.heap ∧
       t2.all (fun a => !a.touchesHandle) = true) :=
  ⟨⟨_, _, rfl, rfl, rfl⟩, ⟨_, _, _, rfl, rfl, rfl⟩⟩

/-- Claim C8: both functions are total in the handle argument and safe for any
pointer value: for every pointer, the null pointer included, each runs to
completion with an `ok` result and a trace that never dereferences the
handle. -/
theorem shim_safe_for_any_pointer (σ : Type) (db : DBMPtr) (s : CState σ) :
    (∃ out, dbm_clearerr db s = .ok out ∧
       out.2.all (fun a => !a.touchesHandle) = true) ∧
    (∃ out, dbm_error db s = .ok out ∧
       out.2.2.all (fun a => !a.touchesHandle) = true) ∧
    (∃ out, dbm_clearerr nullPtr s = .ok out) ∧
    (∃ out, dbm_error nullPtr s = .ok out) :=
  ⟨⟨_, rfl, rfl⟩, ⟨_, rfl, rfl⟩, ⟨_, rfl⟩, ⟨_, rfl⟩⟩

/-- Claim C9: `dbm_clearerr` is idempotent: calling it a second time, with any
handle, leaves the state exactly as after the first call. -/
theorem clearerr_idempotent (σ : Type) (db db' : DBMPtr) (s : CState σ) :
    ∃ s1 t1 s2 t2,
      dbm_clearerr db s = .ok (s1, t1) ∧
      dbm_clearerr db' s1 = .ok (s2, t2) ∧
      s2 = s1 :=
  ⟨_, _, _, _, rfl, rfl, rfl⟩

/-- Claim C10: the value `dbm_error` returns depends only on the global error
indicator: for any two handles and any two states, even with different heaps
and different remaining process state, equal error indicators give equal
return values. -/
theorem error_depends_only_on_errno (σ₁ σ₂ : Type) (db1 db2 : DBMPtr)
    (s1 : CState σ₁) (s2 : CState σ₂)
    (h : s1.gdbm_errno = s2.gdbm_errno) :
    ∃ r s1' t1 s2' t2,
      dbm_error db1 s1 = .ok (r, s1', t1) ∧
      dbm_error db2 s2 = .ok (r, s2', t2) :=
  ⟨s1.gdbm_errno, _, _, _, _, rfl, by rw [dbm_error, h]⟩

/-- Witness for claim C10 at concrete inputs: two states over different state
types, with different heaps, sharing the error indicator value 7. -/
theorem error_depends_only_on_errno_witness :
    sampleState.gdbm_errno = sampleState2.gdbm_errno ∧
    (∃ r s1' t1 s2' t2,
       dbm_error 1 sampleState = .ok (r, s1', t1) ∧
       dbm_error 2 sampleState2 = .ok (r, s2', t2)) :=
  ⟨rfl,
   error_depends_only_on_errno Unit Bool 1 2 sampleState sampleState2 rfl⟩
